import Mathlib

/-
Shallow embedding of the `streamdeck` driver for the 15-key deck
(`streamdeck.go`, `streamdeck15.go`).

Conventions of the embedding:
* Go `byte` values are represented as `Nat`; an explicit `% 256` is taken
  exactly where the Go byte arithmetic can wrap (the sum inside
  `invertKeyOrId` and the `+ 1` on the image id in `SetKeyImage`).
  Subtractions inside `invertKeyOrId` cannot underflow because
  `col = value % 5 ≤ value` and `col ≤ 4`.
* The handler registry `map[byte]KeyPressFn` is a function
  `Nat → Option KeyPressFn`; map assignment and `delete` are pointwise
  updates.
* Handler invocations are made observable by a trace: every dispatch
  returns the list of arguments passed to invoked handlers, in order.
* The HID device is a `Transport`: a scripted list of outcomes for
  successive writes (`none` = success, `some code` = failing write) plus
  the log of all byte buffers written.  Error messages of the Go code
  (`errors.Wrapf` contexts) are modelled by the enumeration `ErrCtx`,
  transport error causes by a numeric code.
* `loadImage` either yields no image (empty filename) or a decoded
  image; the decoded image is passed in directly as an
  `Option Image` so that the pixel-scanning loop of `SetKeyImage` is
  modelled faithfully without the external PNG decoder.
-/

namespace Streamdeck

/-- `const columns = 5` of `streamdeck15.go`. -/
def columns : Nat := 5

/-- `invertKeyOrId`: `col := value % columns;
return (value - col) + ((columns - 1) - col)` in Go byte arithmetic. -/
def invertKeyOrId (value : Nat) : Nat :=
  let col := value % columns
  ((value - col) + ((columns - 1) - col)) % 256

/-- `internalIdToKey` of the earlier, table-based revision of
`streamdeck15.go`: native scan id to logical left-to-right index. -/
def internalIdToKey (id : Nat) : Nat :=
  match id with
  | 0 => 4 | 1 => 3 | 2 => 2 | 3 => 1 | 4 => 0
  | 5 => 9 | 6 => 8 | 7 => 7 | 8 => 6 | 9 => 5
  | 10 => 14 | 11 => 13 | 12 => 12 | 13 => 11 | 14 => 10
  | _ => 255

/-- `keyToInternalId` of the earlier, table-based revision of
`streamdeck15.go`: logical index to native scan id. -/
def keyToInternalId (key : Nat) : Nat :=
  match key with
  | 4 => 0 | 3 => 1 | 2 => 2 | 1 => 3 | 0 => 4
  | 9 => 5 | 8 => 6 | 7 => 7 | 6 => 8 | 5 => 9
  | 14 => 10 | 13 => 11 | 12 => 12 | 11 => 13 | 10 => 14
  | _ => 255

/-- Go `type KeyPressFn func(key byte) bool`. -/
def KeyPressFn : Type := Nat → Bool

/-- The registry `handlers map[byte]KeyPressFn` of `streamDeckBase`. -/
def Handlers : Type := Nat → Option KeyPressFn

/-- `make(map[byte]KeyPressFn)` of `newStreamDeckBase`. -/
def emptyHandlers : Handlers := fun _ => none

/-- Map assignment `deck.handlers[key] = fn`. -/
def setHandler (h : Handlers) (key : Nat) (fn : KeyPressFn) : Handlers :=
  fun j => if j = key then some fn else h j

/-- `delete(deck.handlers, key)`. -/
def removeHandler (h : Handlers) (key : Nat) : Handlers :=
  fun j => if j = key then none else h j

/-- Contexts used by `errors.Wrapf` in the driver. -/
inductive ErrCtx where
  | readKeyPress
  | writePage1
  | writePage2
  deriving DecidableEq

/-- Errors surfaced by the driver: `ErrInvalidKey` and wrapped transport
errors (the cause is the transport error code). -/
inductive DeckError where
  | invalidKey
  | wrapped (context : ErrCtx) (cause : Nat)
  deriving DecidableEq

/-- `SetGlobalKeyHandler`: `deck.handlers[255] = fn`. -/
def setGlobalKeyHandler (h : Handlers) (fn : KeyPressFn) : Handlers :=
  setHandler h 255 fn

/-- `ClearGlobalKeyHandler`: `delete(deck.handlers, 255)`. -/
def clearGlobalKeyHandler (h : Handlers) : Handlers :=
  removeHandler h 255

/-- `SetKeyHandler` (current revision): reject keys outside `[0, 14]`,
otherwise store the handler. -/
def setKeyHandler (h : Handlers) (key : Nat) (fn : KeyPressFn) :
    Except DeckError Handlers :=
  if key < 0 ∨ key > 14 then Except.error DeckError.invalidKey
  else Except.ok (setHandler h key fn)

/-- `ClearKeyHandler` (current revision): reject keys outside `[0, 14]`,
otherwise remove the handler. -/
def clearKeyHandler (h : Handlers) (key : Nat) :
    Except DeckError Handlers :=
  if key < 0 ∨ key > 14 then Except.error DeckError.invalidKey
  else Except.ok (removeHandler h key)

/-- `dispatchKey`: look the key up in the registry; when present, invoke
the handler with that key and delete the entry when it returns false.
The second component is the trace of handler invocations (the argument
each invoked handler received). -/
def dispatchKey (h : Handlers) (key : Nat) : Handlers × List Nat :=
  match h key with
  | some handler =>
      if handler key then (h, [key]) else (removeHandler h key, [key])
  | none => (h, [])

/-- The body of the press branch inside `ProcessEvents`:
`deck.dispatchKey(255); deck.dispatchKey(deck.invertKeyOrId(byte(id)))`
for a pressed native id. -/
def pressNative (h : Handlers) (id : Nat) : Handlers × List Nat :=
  let p := dispatchKey h 255
  let q := dispatchKey p.1 (invertKeyOrId id)
  (q.1, p.2 ++ q.2)

/-- The loop `for id, state := range report[1:]` of `ProcessEvents`,
threading the registry and accumulating the invocation trace. -/
def dispatchLoop (h : Handlers) (states : List Nat) (id : Nat) :
    Handlers × List Nat :=
  match states with
  | [] => (h, [])
  | state :: rest =>
      if state = 1 then
        let p := pressNative h id
        let r := dispatchLoop p.1 rest (id + 1)
        (r.1, p.2 ++ r.2)
      else dispatchLoop h rest (id + 1)

/-- `ProcessEvents` after a successful timed read that returned `bytes`
bytes into the 16-byte `report` buffer.  Result: final registry,
invocation trace, and whether the unexpected-report diagnostic was
printed. -/
def processEvents (h : Handlers) (bytes : Nat) (report : List Nat) :
    Except DeckError (Handlers × List Nat × Bool) :=
  if 0 < bytes then
    if report.headD 0 = 1 then
      let d := dispatchLoop h report.tail 0
      Except.ok (d.1, d.2, false)
    else
      Except.ok (h, [], true)
  else
    Except.ok (h, [], false)

/-- Outcome of `deck.device.ReadTimeout`. -/
inductive ReadResult where
  | failed (cause : Nat)
  | done (bytes : Nat) (report : List Nat)

/-- `ProcessEvents` including the wrapping of a read error. -/
def processEventsWithRead (h : Handlers) (r : ReadResult) :
    Except DeckError (Handlers × List Nat × Bool) :=
  match r with
  | ReadResult.failed cause =>
      Except.error (DeckError.wrapped ErrCtx.readKeyPress cause)
  | ReadResult.done bytes report => processEvents h bytes report

/-- Specification-side dispatcher: dispatch each target key in turn. -/
def dispatchSeq (h : Handlers) (targets : List Nat) : Handlers × List Nat :=
  match targets with
  | [] => (h, [])
  | k :: ks =>
      let p := dispatchKey h k
      let r := dispatchSeq p.1 ks
      (r.1, p.2 ++ r.2)

/-- Specification-side list of dispatch targets of one key-state report:
for each pressed native id, in ascending id order, the global sentinel
255 followed by the translated logical key. -/
def pressTargets (states : List Nat) (id : Nat) : List Nat :=
  match states with
  | [] => []
  | state :: rest =>
      (if state = 1 then [255, invertKeyOrId id] else []) ++
        pressTargets rest (id + 1)

/-- A decoded image as `SetKeyImage` consumes it: bounds and the
`RGBA()` channels of each pixel (`r`, `g`, `b` as raw values; the Go
code truncates each with `byte(·)`). -/
structure Image where
  minX : Int
  minY : Int
  maxX : Int
  maxY : Int
  pixelAt : Int → Int → Nat × Nat × Nat

/-- Inner pixel loop of `SetKeyImage`: `for x := bounds.Max.X;
x > bounds.Min.X; x--`, appending `byte(b), byte(g), byte(r)`.  The
fuel argument bounds the iteration count and is instantiated with
`(maxX - minX).toNat`. -/
def scanRow (img : Image) (y : Int) : Nat → Int → List Nat
  | 0, _ => []
  | fuel + 1, x =>
      if img.minX < x then
        let c := img.pixelAt x y
        c.2.2 % 256 :: c.2.1 % 256 :: c.1 % 256 :: scanRow img y fuel (x - 1)
      else []

/-- Outer scanline loop of `SetKeyImage`: `for y := bounds.Min.Y;
y < bounds.Max.Y; y++`. -/
def scanImage (img : Image) : Nat → Int → List Nat
  | 0, _ => []
  | fuel + 1, y =>
      if y < img.maxY then
        scanRow img y (img.maxX - img.minX).toNat img.maxX ++
          scanImage img fuel (y + 1)
      else []

/-- The Pixel Buffer built by `SetKeyImage`: scan the decoded image, or
`make([]byte, 72*72*3)` (all zero bytes) when no image was loaded. -/
def imageBytes : Option Image → List Nat
  | some img => scanImage img (img.maxY - img.minY).toNat img.minY
  | none => List.replicate (72 * 72 * 3) 0

/-- The scripted HID device: outcomes for successive `device.Write`
calls (`none` = success) and the log of written buffers. -/
structure Transport where
  outcomes : List (Option Nat)
  writes : List (List Nat)
  deriving DecidableEq

/-- `device.Write(page)`: log the buffer and consume the next scripted
outcome (success when the script is exhausted). -/
def transportWrite (t : Transport) (data : List Nat) :
    Option Nat × Transport :=
  match t.outcomes with
  | [] => (none, { t with writes := t.writes ++ [data] })
  | o :: rest => (o, { outcomes := rest, writes := t.writes ++ [data] })

/-- `writePage`: concatenate header and payload into one buffer and
write it. -/
def writePage (t : Transport) (header payload : List Nat) :
    Option Nat × Transport :=
  transportWrite t (header ++ payload)

/-- A fresh device on which every write succeeds. -/
def transport0 : Transport := { outcomes := [], writes := [] }

/-- `header1` of `SetKeyImage` with the image id substituted at index 5
(16 protocol bytes followed by a 54-byte BMP header). -/
def header1 (id : Nat) : List Nat :=
  [0x02, 0x01, 0x01, 0x00, 0x00, id, 0x00, 0x00,
   0x00, 0x00, 0x00, 0x00, 0x00, 0x00, 0x00, 0x00,
   0x42, 0x4d, 0xf6, 0x3c, 0x00, 0x00, 0x00, 0x00,
   0x00, 0x00, 0x36, 0x00, 0x00, 0x00, 0x28, 0x00,
   0x00, 0x00, 0x48, 0x00, 0x00, 0x00, 0x48, 0x00,
   0x00, 0x00, 0x01, 0x00, 0x18, 0x00, 0x00, 0x00,
   0x00, 0x00, 0xc0, 0x3c, 0x00, 0x00, 0xc4, 0x0e,
   0x00, 0x00, 0xc4, 0x0e, 0x00, 0x00, 0x00, 0x00,
   0x00, 0x00, 0x00, 0x00, 0x00, 0x00]

/-- `header2` of `SetKeyImage` with the image id substituted at index 5. -/
def header2 (id : Nat) : List Nat :=
  [0x02, 0x01, 0x02, 0x00, 0x01, id, 0x00, 0x00,
   0x00, 0x00, 0x00, 0x00, 0x00, 0x00, 0x00, 0x00]

/-- `imageBytesOnPage1 := 2583 * 3`. -/
def imageBytesOnPage1 : Nat := 2583 * 3

/-- `SetKeyImage` of the current revision of `streamdeck15.go`: the
1-based image id is `invertKeyOrId(key) + 1` (byte arithmetic, no
validity check), the Pixel Buffer is split after `2583*3` bytes, page 1
then page 2 are written, and a failing write aborts with a wrapped
error. -/
def setKeyImage (key : Nat) (img : Option Image) (t : Transport) :
    Except DeckError Unit × Transport :=
  let id := (invertKeyOrId key + 1) % 256
  let bytes := imageBytes img
  let w1 := writePage t (header1 id) (bytes.take imageBytesOnPage1)
  match w1.1 with
  | some cause =>
      (Except.error (DeckError.wrapped ErrCtx.writePage1 cause), w1.2)
  | none =>
      let w2 := writePage w1.2 (header2 id) (bytes.drop imageBytesOnPage1)
      match w2.1 with
      | some cause =>
          (Except.error (DeckError.wrapped ErrCtx.writePage2 cause), w2.2)
      | none => (Except.ok (), w2.2)

/-- C1: for every native value `v` with `0 ≤ v ≤ 14`, applying the key
translation function twice returns `v`: `invertKeyOrId` is an involution
on the valid range of the 15-key layout. -/
theorem invertKeyOrId_involution (v : Nat) (hv : v ≤ 14) :
    invertKeyOrId (invertKeyOrId v) = v := by
  have h : ∀ w : Nat, w < 15 → invertKeyOrId (invertKeyOrId w) = w := by
    decide
  exact h v (by omega)

/-- Witness for C1 at `v = 7`. -/
theorem invertKeyOrId_involution_witness :
    7 ≤ 14 ∧ invertKeyOrId (invertKeyOrId 7) = 7 :=
  ⟨by decide, invertKeyOrId_involution 7 (by decide)⟩

/-- C9 counterexample: the current key translation function
`invertKeyOrId` does not map the out-of-range value 15 to the sentinel
255; it returns 19. -/
theorem invertKeyOrId_no_sentinel_cex :
    invertKeyOrId 15 = 19 ∧ invertKeyOrId 15 ≠ 255 := by
  decide

set_option maxRecDepth 2048 in
/-- C9 amended: for every byte value outside the valid range
(`14 < v < 256`), the table-based translation functions of the earlier
revision return the sentinel 255, while the current closed-form
`invertKeyOrId` never returns the sentinel. -/
theorem translate_out_of_range (v : Nat) (h14 : 14 < v) (h256 : v < 256) :
    internalIdToKey v = 255 ∧ keyToInternalId v = 255 ∧
      invertKeyOrId v ≠ 255 := by
  have h : ∀ w : Nat, w < 256 → 14 < w →
      internalIdToKey w = 255 ∧ keyToInternalId w = 255 ∧
        invertKeyOrId w ≠ 255 := by
    decide
  exact h v h256 h14

/-- Witness for the amended C9 at `v = 15`. -/
theorem translate_out_of_range_witness :
    (14 < 15 ∧ 15 < 256) ∧
      (internalIdToKey 15 = 255 ∧ keyToInternalId 15 = 255 ∧
        invertKeyOrId 15 ≠ 255) :=
  ⟨⟨by decide, by decide⟩, translate_out_of_range 15 (by decide) (by decide)⟩

/-- Helper: the involution on the valid range, for reuse in dispatch
proofs. -/
theorem invertKeyOrId_invol_aux :
    ∀ v : Nat, v < 15 → invertKeyOrId (invertKeyOrId v) = v := by
  decide

set_option maxRecDepth 2048 in
/-- Helper: on byte inputs the closed-form translation never yields the
sentinel 255. -/
theorem invertKeyOrId_ne_255 : ∀ i : Nat, i < 256 → invertKeyOrId i ≠ 255 := by
  decide

/-- Helper: dispatching a key leaves every other registry slot
unchanged. -/
theorem dispatchKey_fst_ne (h : Handlers) (key j : Nat) (hj : j ≠ key) :
    (dispatchKey h key).1 j = h j := by
  unfold dispatchKey
  cases hk : h key with
  | none => simp
  | some fn => by_cases hf : fn key <;> simp [hf, removeHandler, hj]

/-- Helper: every invocation recorded by `dispatchKey h key` received
the argument `key`. -/
theorem dispatchKey_trace_eq (h : Handlers) (key : Nat) :
    ∀ x ∈ (dispatchKey h key).2, x = key := by
  unfold dispatchKey
  cases hk : h key with
  | none => simp
  | some fn => by_cases hf : fn key <;> simp [hf]

/-- Helper: dispatching an unregistered key does nothing. -/
theorem dispatchKey_of_none (h : Handlers) (key : Nat) (h0 : h key = none) :
    dispatchKey h key = (h, []) := by
  simp [dispatchKey, h0]

/-- Helper: a handler returning false is invoked once and removed. -/
theorem dispatchKey_of_false (h : Handlers) (key : Nat) (fn : KeyPressFn)
    (hs : h key = some fn) (hf : fn key = false) :
    dispatchKey h key = (removeHandler h key, [key]) := by
  simp [dispatchKey, hs, hf]

/-- Helper: a handler returning true is invoked once and kept. -/
theorem dispatchKey_of_true (h : Handlers) (key : Nat) (fn : KeyPressFn)
    (hs : h key = some fn) (hf : fn key = true) :
    dispatchKey h key = (h, [key]) := by
  simp [dispatchKey, hs, hf]

/-- Helper: `pressNative` unfolded to its two dispatches. -/
theorem pressNative_eq (h : Handlers) (i : Nat) :
    pressNative h i =
      ((dispatchKey (dispatchKey h 255).1 (invertKeyOrId i)).1,
       (dispatchKey h 255).2 ++
         (dispatchKey (dispatchKey h 255).1 (invertKeyOrId i)).2) := rfl

/-- Helper: a single press of key `k` whose registered handler returns
false invokes slot `k` exactly once and clears it. -/
theorem pressNative_one_shot_step (g : Handlers) (k : Nat) (fn : KeyPressFn)
    (hne : k ≠ 255) (hgk : g k = some fn) (hfn : fn k = false)
    (hkk : invertKeyOrId (invertKeyOrId k) = k) :
    (pressNative g (invertKeyOrId k)).2.count k = 1 ∧
    (pressNative g (invertKeyOrId k)).1 k = none := by
  rw [pressNative_eq, hkk]
  have h1 : (dispatchKey g 255).1 k = some fn := by
    rw [dispatchKey_fst_ne _ 255 k hne]; exact hgk
  rw [dispatchKey_of_false _ k fn h1 hfn]
  constructor
  · have hcount0 : ((dispatchKey g 255).2).count k = 0 := by
      rw [List.count_eq_zero]
      intro hmem
      exact hne (dispatchKey_trace_eq _ 255 k hmem)
    simp [List.count_append, hcount0]
  · simp [removeHandler]

/-- Helper: a press of key `k` with no handler at slot `k` can invoke
only the global slot 255. -/
theorem pressNative_unregistered (g : Handlers) (k : Nat)
    (hne : k ≠ 255) (hgk : g k = none)
    (hkk : invertKeyOrId (invertKeyOrId k) = k) :
    ∀ x ∈ (pressNative g (invertKeyOrId k)).2, x = 255 := by
  rw [pressNative_eq, hkk]
  have h1 : (dispatchKey g 255).1 k = none := by
    rw [dispatchKey_fst_ne _ 255 k hne]; exact hgk
  rw [dispatchKey_of_none _ k h1]
  intro x hx
  simp only [List.append_nil] at hx
  exact dispatchKey_trace_eq _ 255 x hx

/-- C3: for every key `k` in `[0, 14]`, after `SetKeyHandler(k, fn)`
with `fn` returning false, dispatching one press event for `k` invokes
the handler stored at slot `k` exactly once and removes it from the
registry; a subsequent press for `k` invokes no specific-key handler
(every invocation of the second press targets the sentinel 255). -/
theorem setKeyHandler_one_shot (h : Handlers) (k : Nat) (fn : KeyPressFn)
    (hk : k ≤ 14) (hfn : fn k = false) :
    setKeyHandler h k fn = Except.ok (setHandler h k fn) ∧
    (pressNative (setHandler h k fn) (invertKeyOrId k)).2.count k = 1 ∧
    (pressNative (setHandler h k fn) (invertKeyOrId k)).1 k = none ∧
    (∀ x ∈ (pressNative (pressNative (setHandler h k fn) (invertKeyOrId k)).1
        (invertKeyOrId k)).2, x = 255) := by
  have hinv : invertKeyOrId (invertKeyOrId k) = k :=
    invertKeyOrId_invol_aux k (by omega)
  have hne : k ≠ 255 := by omega
  have hset : setHandler h k fn k = some fn := by simp [setHandler]
  have hmain := pressNative_one_shot_step (setHandler h k fn) k fn hne hset hfn hinv
  refine ⟨?_, hmain.1, hmain.2, ?_⟩
  · have hcond : ¬ (k < 0 ∨ k > 14) := by omega
    simp only [setKeyHandler, if_neg hcond]
  · exact pressNative_unregistered _ k hne hmain.2 hinv

/-- Witness for C3 with `k = 0` and the constant-false handler on the
empty registry. -/
theorem setKeyHandler_one_shot_witness :
    (0 ≤ 14 ∧ (fun _ => false : KeyPressFn) 0 = false) ∧
    (setKeyHandler emptyHandlers 0 (fun _ => false) =
        Except.ok (setHandler emptyHandlers 0 (fun _ => false)) ∧
      (pressNative (setHandler emptyHandlers 0 (fun _ => false))
          (invertKeyOrId 0)).2.count 0 = 1 ∧
      (pressNative (setHandler emptyHandlers 0 (fun _ => false))
          (invertKeyOrId 0)).1 0 = none ∧
      (∀ x ∈ (pressNative
          (pressNative (setHandler emptyHandlers 0 (fun _ => false))
            (invertKeyOrId 0)).1 (invertKeyOrId 0)).2, x = 255)) :=
  ⟨⟨by decide, rfl⟩,
   setKeyHandler_one_shot emptyHandlers 0 (fun _ => false) (by decide) rfl⟩

/-- C10: whenever a press event is processed with a global handler
registered, the first handler invocation of the press receives the
sentinel 255 as its argument (never the translated logical key), and the
global handler is removed from the registry exactly when it returns
false, kept when it returns true. -/
theorem global_handler_sentinel (h : Handlers) (fn : KeyPressFn) (i : Nat)
    (hi : i < 256) (hg : h 255 = some fn) :
    (pressNative h i).2.headD 0 = 255 ∧
    (fn 255 = false → (pressNative h i).1 255 = none) ∧
    (fn 255 = true → (pressNative h i).1 255 = some fn) := by
  have hne : invertKeyOrId i ≠ 255 := invertKeyOrId_ne_255 i hi
  by_cases hf : fn 255 = true
  · have hp : dispatchKey h 255 = (h, [255]) :=
      dispatchKey_of_true h 255 fn hg hf
    refine ⟨?_, ?_, ?_⟩
    · rw [pressNative_eq, hp]
      simp
    · intro h3
      rw [h3] at hf
      simp at hf
    · intro _
      rw [pressNative_eq, hp]
      rw [dispatchKey_fst_ne _ (invertKeyOrId i) 255 (Ne.symm hne)]
      exact hg
  · have hf0 : fn 255 = false := by
      cases h255 : fn 255
      · rfl
      · exact absurd h255 hf
    have hp : dispatchKey h 255 = (removeHandler h 255, [255]) :=
      dispatchKey_of_false h 255 fn hg hf0
    refine ⟨?_, ?_, ?_⟩
    · rw [pressNative_eq, hp]
      simp
    · intro _
      rw [pressNative_eq, hp]
      rw [dispatchKey_fst_ne _ (invertKeyOrId i) 255 (Ne.symm hne)]
      simp [removeHandler]
    · intro h3
      exact absurd h3 hf

/-- Witness for C10 with the constant-false global handler and native
id 0. -/
theorem global_handler_sentinel_witness :
    ((0:Nat) < 256 ∧
      setGlobalKeyHandler emptyHandlers (fun _ => false) 255 =
        some (fun _ => false : KeyPressFn)) ∧
    ((pressNative (setGlobalKeyHandler emptyHandlers (fun _ => false))
        0).2.headD 0 = 255 ∧
      (pressNative (setGlobalKeyHandler emptyHandlers (fun _ => false))
        0).1 255 = none) :=
  ⟨⟨by decide, rfl⟩,
   ⟨(global_handler_sentinel (setGlobalKeyHandler emptyHandlers (fun _ => false))
      (fun _ => false) 0 (by decide) rfl).1,
    (global_handler_sentinel (setGlobalKeyHandler emptyHandlers (fun _ => false))
      (fun _ => false) 0 (by decide) rfl).2.1 rfl⟩⟩

/-- Helper: the `ProcessEvents` loop is the sequential dispatch of its
press targets. -/
theorem dispatchLoop_eq (states : List Nat) :
    ∀ (h : Handlers) (id : Nat),
      dispatchLoop h states id = dispatchSeq h (pressTargets states id) := by
  induction states with
  | nil => intro h id; rfl
  | cons state rest ih =>
      intro h id
      by_cases hs : state = 1
      · simp only [dispatchLoop, pressTargets, hs, if_pos, List.cons_append,
          List.nil_append, dispatchSeq, pressNative_eq, ih, List.append_assoc]
      · simp only [dispatchLoop, pressTargets, hs, if_neg, List.nil_append,
          ite_false]
        exact ih h (id + 1)

/-- C4: a successful read of a key-state report (`bytes > 0`, report
type byte 1) dispatches, for each pressed native id of the report in
ascending id order, the global sentinel 255 first and the translated
logical key second, exactly as described by `pressTargets`. -/
theorem processEvents_dispatch_order (h : Handlers) (bytes : Nat)
    (report : List Nat) (hb : 0 < bytes) (hr : report.headD 0 = 1) :
    processEvents h bytes report =
      Except.ok ((dispatchSeq h (pressTargets report.tail 0)).1,
        (dispatchSeq h (pressTargets report.tail 0)).2, false) := by
  unfold processEvents
  rw [if_pos hb, if_pos hr, dispatchLoop_eq]

/-- Witness for C4 on a report with native ids 0 pressed. -/
theorem processEvents_dispatch_order_witness :
    (0 < 16 ∧ ((1 :: 1 :: List.replicate 14 0 : List Nat)).headD 0 = 1) ∧
    processEvents emptyHandlers 16 (1 :: 1 :: List.replicate 14 0) =
      Except.ok
        ((dispatchSeq emptyHandlers
            (pressTargets (1 :: 1 :: List.replicate 14 0 : List Nat).tail 0)).1,
         (dispatchSeq emptyHandlers
            (pressTargets (1 :: 1 :: List.replicate 14 0 : List Nat).tail 0)).2,
         false) :=
  ⟨⟨by decide, rfl⟩,
   processEvents_dispatch_order emptyHandlers 16 (1 :: 1 :: List.replicate 14 0)
     (by decide) rfl⟩

/-- C7: a timed read returning zero bytes makes `ProcessEvents` return
success with no handler invocation and no diagnostic; a non-empty read
whose report-type byte is not 1 makes it return success with no handler
invocation but with the diagnostic emitted. -/
theorem processEvents_discard (h : Handlers) (bytes : Nat)
    (report : List Nat) :
    processEvents h 0 report = Except.ok (h, [], false) ∧
    (0 < bytes → report.headD 0 ≠ 1 →
      processEvents h bytes report = Except.ok (h, [], true)) := by
  constructor
  · rfl
  · intro hb hr
    unfold processEvents
    rw [if_pos hb, if_neg hr]

/-- Witness for C7: an empty read, and a 16-byte report of type 2. -/
theorem processEvents_discard_witness :
    (processEvents emptyHandlers 0 [] = Except.ok (emptyHandlers, [], false)) ∧
    (0 < 16 ∧ ((List.replicate 16 2 : List Nat)).headD 0 ≠ 1) ∧
    processEvents emptyHandlers 16 (List.replicate 16 2) =
      Except.ok (emptyHandlers, [], true) :=
  ⟨(processEvents_discard emptyHandlers 16 []).1,
   ⟨by decide, by decide⟩,
   (processEvents_discard emptyHandlers 16 (List.replicate 16 2)).2
     (by decide) (by decide)⟩

/-- Helper: the blank Pixel Buffer is 15552 zero bytes. -/
theorem imageBytes_none : imageBytes none = List.replicate 15552 0 := by
  have h : (72 * 72 * 3 : Nat) = 15552 := by norm_num
  unfold imageBytes
  rw [h]

/-- Helper: page 1 carries the first 7749 bytes of the blank buffer. -/
theorem imageBytes_none_take :
    (imageBytes none).take imageBytesOnPage1 = List.replicate 7749 0 := by
  have h : min imageBytesOnPage1 15552 = 7749 := by
    norm_num [imageBytesOnPage1]
  rw [imageBytes_none, List.take_replicate, h]

/-- Helper: page 2 carries the remaining 7803 bytes of the blank
buffer. -/
theorem imageBytes_none_drop :
    (imageBytes none).drop imageBytesOnPage1 = List.replicate 7803 0 := by
  have h : 15552 - imageBytesOnPage1 = 7803 := by
    norm_num [imageBytesOnPage1]
  rw [imageBytes_none, List.drop_replicate, h]

/-- C5: the Pixel Buffer produced by `SetKeyImage` without an image
source has length exactly 72 × 72 × 3 = 15552 and every byte is zero. -/
theorem blank_pixel_buffer :
    (imageBytes none).length = 15552 ∧ ∀ b ∈ imageBytes none, b = 0 := by
  constructor
  · rw [imageBytes_none, List.length_replicate]
  · intro b hb
    rw [imageBytes_none] at hb
    exact List.eq_of_mem_replicate hb

/-- Witness for C5: the byte value 0 is a member of the blank buffer
and the theorem evaluates it to zero. -/
theorem blank_pixel_buffer_witness :
    0 ∈ imageBytes none ∧ (0 : Nat) = 0 := by
  have hmem : (0 : Nat) ∈ imageBytes none := by
    rw [imageBytes_none]
    exact List.mem_replicate.mpr (by norm_num)
  exact ⟨hmem, blank_pixel_buffer.2 0 hmem⟩

/-- Helper: `SetKeyImage` with no image source on a fresh device
performs exactly the two page writes, with the blank Pixel Buffer split
after 7749 bytes. -/
theorem setKeyImage_blank_writes (key : Nat) :
    setKeyImage key none transport0 =
      (Except.ok (),
       { outcomes := [],
         writes :=
           [header1 ((invertKeyOrId key + 1) % 256) ++ List.replicate 7749 0,
            header2 ((invertKeyOrId key + 1) % 256) ++
              List.replicate 7803 0] }) := by
  unfold setKeyImage writePage
  simp only [imageBytes_none_take, imageBytes_none_drop]
  rfl

/-- Helper: page-1 header length (16 protocol bytes + 54-byte BMP
header). -/
theorem header1_length (id : Nat) : (header1 id).length = 70 := by
  simp [header1]

/-- Helper: page-2 header length. -/
theorem header2_length (id : Nat) : (header2 id).length = 16 := by
  simp [header2]

/-- C6 counterexample: at logical key 0 and no image source, the first
transport write is 7819 bytes (70-byte header plus 7749 payload bytes),
not 74 + 7749, and its key-id byte at offset 5 is 5, not the
native-translated identifier `invertKeyOrId 0 = 4` of the claim. -/
theorem setKeyImage_key0_cex :
    ((setKeyImage 0 none transport0).2.writes.headD []).length = 7819 ∧
    ((setKeyImage 0 none transport0).2.writes.headD []).length ≠ 74 + 7749 ∧
    ((setKeyImage 0 none transport0).2.writes.headD []).getD 5 0 = 5 ∧
    ((setKeyImage 0 none transport0).2.writes.headD []).getD 5 0 ≠
      invertKeyOrId 0 := by
  have hid : (invertKeyOrId 0 + 1) % 256 = 5 := by decide
  have hw : (setKeyImage 0 none transport0).2.writes =
      [header1 5 ++ List.replicate 7749 0,
       header2 5 ++ List.replicate 7803 0] := by
    rw [setKeyImage_blank_writes 0, hid]
  rw [hw, List.headD_cons]
  have hlen : (header1 5 ++ List.replicate 7749 0).length = 7819 := by
    rw [List.length_append, header1_length, List.length_replicate]
  have hbyte : (header1 5 ++ List.replicate 7749 0).getD 5 0 = 5 := rfl
  refine ⟨hlen, ?_, hbyte, ?_⟩
  · rw [hlen]; decide
  · rw [hbyte]; decide

/-- C6 amended: `SetKeyImage(0, <no source>)` performs exactly two
transport writes: a 70-byte header followed by the first 7749 bytes of
the blank Pixel Buffer, then a 16-byte header followed by the remaining
7803 bytes; the key-id byte at offset 5 of each header equals the
native-translated identifier of key 0 plus one (the device numbers
images 1-based). -/
theorem setKeyImage_key0_amended :
    (setKeyImage 0 none transport0).1 = Except.ok () ∧
    (setKeyImage 0 none transport0).2.writes =
      [header1 (invertKeyOrId 0 + 1) ++ List.replicate 7749 0,
       header2 (invertKeyOrId 0 + 1) ++ List.replicate 7803 0] ∧
    (header1 (invertKeyOrId 0 + 1)).length = 70 ∧
    (header2 (invertKeyOrId 0 + 1)).length = 16 ∧
    (header1 (invertKeyOrId 0 + 1)).getD 5 0 = invertKeyOrId 0 + 1 ∧
    (header2 (invertKeyOrId 0 + 1)).getD 5 0 = invertKeyOrId 0 + 1 := by
  have hid : (invertKeyOrId 0 + 1) % 256 = invertKeyOrId 0 + 1 := by decide
  refine ⟨?_, ?_, header1_length _, header2_length _, rfl, rfl⟩
  · rw [setKeyImage_blank_writes 0]
  · rw [setKeyImage_blank_writes 0, hid]

/-- C2, code-bug evaluation: `SetKeyHandler` and `ClearKeyHandler`
reject keys 15 and 255 with the invalid-key error, but the current
`SetKeyImage` performs no range check: at key 15 (and at key 255, which
silently targets a real key) it returns success after writing both
pages. -/
theorem invalid_key_check_eval :
    setKeyHandler emptyHandlers 15 (fun _ => true) =
        Except.error DeckError.invalidKey ∧
    setKeyHandler emptyHandlers 255 (fun _ => true) =
        Except.error DeckError.invalidKey ∧
    clearKeyHandler emptyHandlers 15 = Except.error DeckError.invalidKey ∧
    clearKeyHandler emptyHandlers 255 = Except.error DeckError.invalidKey ∧
    (setKeyImage 15 none transport0).1 = Except.ok () ∧
    (setKeyImage 15 none transport0).2.writes.length = 2 ∧
    (setKeyImage 255 none transport0).1 = Except.ok () ∧
    (setKeyImage 255 none transport0).2.writes.length = 2 := by
  refine ⟨rfl, rfl, rfl, rfl, ?_, ?_, ?_, ?_⟩
  · rw [setKeyImage_blank_writes 15]
  · rw [setKeyImage_blank_writes 15]; rfl
  · rw [setKeyImage_blank_writes 255]
  · rw [setKeyImage_blank_writes 255]; rfl

/-- C8: a failing page-1 write makes `SetKeyImage` return the error
wrapped with the page-1 context after exactly one transport write (page
2 is never attempted); a successful page-1 write followed by a failing
page-2 write returns the error wrapped with the page-2 context after
exactly two transport writes; no write is retried. -/
theorem setKeyImage_page_failure (key : Nat) (img : Option Image)
    (cause : Nat) (rest : List (Option Nat)) (w0 : List (List Nat)) :
    ((setKeyImage key img { outcomes := some cause :: rest, writes := w0 }).1 =
        Except.error (DeckError.wrapped ErrCtx.writePage1 cause) ∧
      (setKeyImage key img { outcomes := some cause :: rest, writes := w0 }).2.writes.length =
        w0.length + 1) ∧
    ((setKeyImage key img { outcomes := none :: some cause :: rest, writes := w0 }).1 =
        Except.error (DeckError.wrapped ErrCtx.writePage2 cause) ∧
      (setKeyImage key img { outcomes := none :: some cause :: rest, writes := w0 }).2.writes.length =
        w0.length + 2) := by
  refine ⟨⟨?_, ?_⟩, ⟨?_, ?_⟩⟩ <;>
    simp [setKeyImage, writePage, transportWrite]

end Streamdeck
